import Mathlib

/-!
Shallow embedding of the consumer reconciliation logic of the nack
JetStream controller (src/controllers/jetstream/consumer.go), together
with proofs of the specification claims about it.

Go errors are modelled as a record carrying the message text and the
two distinguished inspectable kinds that the code branches on
(a jsm ApiError whose NotFoundError() is true, and a k8s IsNotFound
lister error).  fmt.Errorf wrapping with %w preserves the inspectable
kind and prefixes the message.  External collaborators (the lister, the
secret lookup, the jsm client, the typed consumer store interface) are
modelled as response oracles, exactly the shape of the mock client used
by the repository tests.  Every externally visible action of one
reconciliation (events emitted, remote backend calls, store writes) is
recorded in order in a single effect trace.
-/

set_option linter.unusedVariables false

namespace Nack

/-- A Go error value: its rendered message plus the two inspectable
error kinds the consumer controller branches on. -/
structure GoError where
  msg : String
  isApiNotFound : Bool := false
  isK8sNotFound : Bool := false
deriving Repr, DecidableEq

/-- fmt.Errorf with a context prefix and %w: the wrapped error keeps its
inspectable kind and gains a message prefix. -/
def wrapErr (pre : String) (e : GoError) : GoError :=
  { e with msg := pre ++ ": " ++ e.msg }

/-- fmt.Errorf("%s: %w", err, serr): the status-write failure is merged
behind the original error text. -/
def mergeErr (e serr : GoError) : GoError :=
  { serr with msg := e.msg ++ ": " ++ serr.msg }

/-- Go %q formatting of a string. -/
def quoteStr (s : String) : String := "\"" ++ s ++ "\""

/-- A status condition (apis.Condition). -/
structure Condition where
  ctype : String
  status : String
  lastTransitionTime : String
  reason : String
  message : String
deriving Repr, DecidableEq

/-- Consumer status (apis.Status). -/
structure Status where
  observedGeneration : Int
  conditions : List Condition
deriving Repr, DecidableEq

/-- Consumer spec fields used by processConsumer. -/
structure ConsumerSpec where
  durableName : String
  streamName : String
  servers : List String
  credentialsSecret : Option String
deriving Repr, DecidableEq

/-- A Consumer resource object as read from the lister cache. -/
structure Consumer where
  nspace : String
  name : String
  generation : Int
  deletionTimestamp : Option Int
  finalizers : List String
  spec : ConsumerSpec
  status : Status
deriving Repr, DecidableEq

/-- The finalizer key declared (but never used) in consumer.go. -/
def consumerFinalizerKey : String := "consumerfinalizer.jetstream.nats.io"

/-- Modelled from the spec: streamFinalizerKey is declared in the stream
controller file, which is not part of src/; it is the finalizer token the
controller actually passes to addFinalizer and removeFinalizer in
setConsumerFinalizer and clearConsumerFinalizer, a token distinct from
consumerFinalizerKey. -/
def streamFinalizerKey : String := "streamfinalizer.jetstream.nats.io"

/-- Modelled from the spec: readyCondType, declared in the controller
file missing from src/, is the Ready condition type (at most one entry
of this type exists per resource). -/
def readyCondType : String := "Ready"

/-- Modelled from the spec: finalizer add, declared in the controller
file missing from src/, is a set operation over the string list: a no-op
if the token is already present, otherwise an append. -/
def addFinalizer (fs : List String) (key : String) : List String :=
  if key ∈ fs then fs else fs ++ [key]

/-- Modelled from the spec: finalizer remove, declared in the controller
file missing from src/, drops all occurrences of the token and is
order-preserving for the remainder. -/
def removeFinalizer (fs : List String) (key : String) : List String :=
  fs.filter (fun f => f ≠ key)

/-- Modelled from the spec: condition upsert, declared in the controller
file missing from src/, replaces the entry whose Type matches the new
condition and otherwise appends it. -/
def upsertCondition (cs : List Condition) (next : Condition) : List Condition :=
  match cs with
  | [] => [next]
  | c :: rest =>
    if c.ctype = next.ctype then next :: rest else c :: upsertCondition rest next

/-- Response oracle for the jsm client, the shape of mockJsmClient in
the repository tests: each method either fails with a fixed error or
succeeds. -/
structure JsmClient where
  connectErr : Option GoError
  loadConsumerErr : Option GoError
  newConsumerErr : Option GoError
  deleteErr : Option GoError
deriving Repr, DecidableEq

/-- Response oracle for the typed consumer store interface: Update and
UpdateStatus either fail with a fixed error or succeed echoing the
written object. -/
structure ConsumerInterface where
  updateErr : Option GoError
  updateStatusErr : Option GoError
deriving Repr, DecidableEq

/-- Event types of the k8s event recorder. -/
inductive EventType
  | normal
  | warning
deriving Repr, DecidableEq

/-- Remote backend calls made through the jsm client. -/
inductive RemoteCall
  | connect (servers : String)
  | loadConsumer (stream consumer : String)
  | newConsumer (stream durable : String)
  | deleteConsumer (stream consumer : String)
deriving Repr, DecidableEq

/-- Writes against the declarative store: Update persists the object
(in particular its finalizer list); UpdateStatus persists the status. -/
inductive StoreWrite
  | update (finalizers : List String)
  | updateStatus (st : Status)
deriving Repr, DecidableEq

/-- One externally visible action of a reconciliation, in order. -/
inductive Effect
  | event (etype : EventType) (reason msg : String)
  | remote (call : RemoteCall)
  | write (w : StoreWrite)
deriving Repr, DecidableEq

/-- consumerExists (consumer.go lines 119-135): LoadConsumer mapped to
an existence boolean, with the NotFound ApiError kind meaning absent and
every other error wrapped and propagated. -/
def consumerExists (c : JsmClient) (stream consumer : String) : Except GoError Bool :=
  match c.loadConsumerErr with
  | some e =>
    if e.isApiNotFound then Except.ok false
    else Except.error (wrapErr "failed to check if consumer exists" e)
  | none => Except.ok true

/-- createConsumer (consumer.go lines 137-148): NewConsumer with the
durable name from the spec, errors wrapped with operation context. -/
def createConsumer (c : JsmClient) (spec : ConsumerSpec) : Except GoError Unit :=
  match c.newConsumerErr with
  | some e =>
    Except.error (wrapErr ("failed to create consumer " ++ quoteStr spec.durableName
      ++ " on stream " ++ quoteStr spec.streamName) e)
  | none => Except.ok ()

/-- deleteConsumer (consumer.go lines 150-166): LoadConsumer first, a
NotFound ApiError is success without calling Delete, any other load
error is wrapped and propagated, otherwise Delete is called on the
handle.  Returns the result together with the remote calls made. -/
def deleteConsumer (c : JsmClient) (stream consumer : String) :
    Except GoError Unit × List RemoteCall :=
  match c.loadConsumerErr with
  | some e =>
    if e.isApiNotFound then (Except.ok (), [RemoteCall.loadConsumer stream consumer])
    else
      (Except.error (wrapErr ("failed to delete consumer " ++ quoteStr consumer
        ++ " on stream " ++ quoteStr stream) e),
       [RemoteCall.loadConsumer stream consumer])
  | none =>
    match c.deleteErr with
    | some e =>
      (Except.error (wrapErr ("failed to delete consumer " ++ quoteStr consumer
        ++ " on stream " ++ quoteStr stream) e),
       [RemoteCall.loadConsumer stream consumer, RemoteCall.deleteConsumer stream consumer])
    | none =>
      (Except.ok (),
       [RemoteCall.loadConsumer stream consumer, RemoteCall.deleteConsumer stream consumer])

/-- The status written by setConsumerOK (consumer.go lines 168-189):
ObservedGeneration set to the object generation and a
Ready=True/Created condition upserted. -/
def consumerOKStatus (now : String) (s : Consumer) : Status :=
  { observedGeneration := s.generation,
    conditions := upsertCondition s.status.conditions
      { ctype := readyCondType, status := "True", lastTransitionTime := now,
        reason := "Created", message := "Consumer successfully created" } }

/-- setConsumerOK (consumer.go lines 168-189): deep-copies the object,
sets the OK status and persists it via UpdateStatus, wrapping a write
failure with context.  Returns the result and the store write made. -/
def setConsumerOK (now : String) (s : Consumer) (i : ConsumerInterface) :
    Except GoError Consumer × List StoreWrite :=
  let sc : Consumer := { s with status := consumerOKStatus now s }
  match i.updateStatusErr with
  | some e =>
    (Except.error (wrapErr ("failed to set consumer " ++ quoteStr s.spec.durableName
      ++ " status") e),
     [StoreWrite.updateStatus sc.status])
  | none => (Except.ok sc, [StoreWrite.updateStatus sc.status])

/-- The status written by setConsumerErrored (consumer.go lines
191-214): a Ready=False/Errored condition carrying the error text is
upserted; ObservedGeneration is untouched. -/
def consumerErroredStatus (now : String) (s : Consumer) (e : GoError) : Status :=
  { s.status with
    conditions := upsertCondition s.status.conditions
      { ctype := readyCondType, status := "False", lastTransitionTime := now,
        reason := "Errored", message := e.msg } }

/-- setConsumerErrored (consumer.go lines 191-214) in the case the
incoming error is non-nil: deep-copies the object, upserts the Errored
condition and persists via UpdateStatus.  Returns the result and the
store write made. -/
def setConsumerErrored (now : String) (s : Consumer) (sif : ConsumerInterface)
    (e : GoError) : Except GoError Consumer × List StoreWrite :=
  let sc : Consumer := { s with status := consumerErroredStatus now s e }
  match sif.updateStatusErr with
  | some serr =>
    (Except.error (wrapErr "failed to set consumer errored status" serr),
     [StoreWrite.updateStatus sc.status])
  | none => (Except.ok sc, [StoreWrite.updateStatus sc.status])

/-- setConsumerFinalizer (consumer.go lines 217-229): mutates the object
finalizer list through addFinalizer with streamFinalizerKey, then
persists via Update.  Returns the error if any, the (in-memory mutated)
object, and the store write made. -/
def setConsumerFinalizer (s : Consumer) (i : ConsumerInterface) :
    Option GoError × Consumer × List StoreWrite :=
  let s2 : Consumer := { s with finalizers := addFinalizer s.finalizers streamFinalizerKey }
  match i.updateErr with
  | some e =>
    (some (wrapErr ("failed to set finalizers for consumer " ++ quoteStr s.spec.durableName) e),
     s2, [StoreWrite.update s2.finalizers])
  | none => (none, s2, [StoreWrite.update s2.finalizers])

/-- clearConsumerFinalizer (consumer.go lines 231-243): mutates the
object finalizer list through removeFinalizer with streamFinalizerKey,
then persists via Update.  Returns the error if any, the mutated object,
and the store write made. -/
def clearConsumerFinalizer (s : Consumer) (i : ConsumerInterface) :
    Option GoError × Consumer × List StoreWrite :=
  let s2 : Consumer := { s with finalizers := removeFinalizer s.finalizers streamFinalizerKey }
  match i.updateErr with
  | some e =>
    (some (wrapErr ("failed to clear finalizers for consumer " ++ quoteStr s.spec.durableName) e),
     s2, [StoreWrite.update s2.finalizers])
  | none => (none, s2, [StoreWrite.update s2.finalizers])

/-- The external world one reconciliation runs against: the lister
response for the key, the secret lookup outcome (getCreds lives in the
controller file missing from src/; the spec says absence of a
credentials reference is not an error, so it is an oracle that either
fails or succeeds), the jsm client oracle, the typed store oracle, and
the wall-clock timestamp string. -/
structure World where
  lister : Except GoError Consumer
  credsErr : Option GoError
  client : JsmClient
  ifc : ConsumerInterface
  now : String
deriving Repr

/-- The body of processConsumer after the lister read (consumer.go lines
43-116): credential lookup, Connecting event, Connect, Connected event,
classification booleans, existence check, and the create / update /
delete / no-op switch.  Returns the error before the deferred handlers,
the effect trace, and the in-memory object at the time the deferred
error handler runs. -/
def processBody (w : World) (cns : Consumer) :
    Option GoError × List Effect × Consumer :=
  let spec := cns.spec
  match w.credsErr with
  | some e => (some e, [], cns)
  | none =>
    let ev2 : List Effect :=
      [Effect.event EventType.normal "Connecting" "Connecting to NATS Server",
       Effect.remote (RemoteCall.connect (String.intercalate "," spec.servers))]
    match w.client.connectErr with
    | some e => (some e, ev2, cns)
    | none =>
      let ev4 : List Effect := ev2 ++
        [Effect.event EventType.normal "Connected" "Connected to NATS Server",
         Effect.remote (RemoteCall.loadConsumer spec.streamName spec.durableName)]
      let deleteOK : Bool := cns.deletionTimestamp.isSome
      let newGeneration : Bool := cns.generation != cns.status.observedGeneration
      match consumerExists w.client spec.streamName spec.durableName with
      | Except.error e => (some e, ev4, cns)
      | Except.ok consumerOK =>
        let updateOK : Bool := consumerOK && !deleteOK && newGeneration
        let createOK : Bool := !consumerOK && !deleteOK && newGeneration
        if createOK then
          let ev6 : List Effect := ev4 ++
            [Effect.event EventType.normal "Creating"
              ("Creating consumer " ++ quoteStr spec.durableName
                ++ " on stream " ++ quoteStr spec.streamName),
             Effect.remote (RemoteCall.newConsumer spec.streamName spec.durableName)]
          match createConsumer w.client spec with
          | Except.error e => (some e, ev6, cns)
          | Except.ok _ =>
            match setConsumerFinalizer cns w.ifc with
            | (some e, cns2, ws) => (some e, ev6 ++ ws.map Effect.write, cns2)
            | (none, cns2, ws) =>
              match setConsumerOK w.now cns2 w.ifc with
              | (Except.error e, ws2) =>
                (some e, ev6 ++ ws.map Effect.write ++ ws2.map Effect.write, cns2)
              | (Except.ok _, ws2) =>
                (none,
                 ev6 ++ ws.map Effect.write ++ ws2.map Effect.write ++
                   [Effect.event EventType.normal "Created"
                     ("Created consumer " ++ quoteStr spec.durableName
                       ++ " on stream " ++ quoteStr spec.streamName)],
                 cns2)
        else if updateOK then
          (none,
           ev4 ++ [Effect.event EventType.warning "Updating"
             ("Consumer updates (" ++ quoteStr spec.durableName ++ " on "
               ++ quoteStr spec.streamName ++ ") are not allowed, recreate to update")],
           cns)
        else if deleteOK then
          let ev5 : List Effect := ev4 ++
            [Effect.event EventType.normal "Deleting"
              ("Deleting consumer " ++ quoteStr spec.durableName
                ++ " on stream " ++ quoteStr spec.streamName)]
          match deleteConsumer w.client spec.streamName spec.durableName with
          | (Except.error e, calls) => (some e, ev5 ++ calls.map Effect.remote, cns)
          | (Except.ok _, calls) =>
            match clearConsumerFinalizer cns w.ifc with
            | (some e, cns2, ws) =>
              (some e, ev5 ++ calls.map Effect.remote ++ ws.map Effect.write, cns2)
            | (none, cns2, ws) =>
              (none, ev5 ++ calls.map Effect.remote ++ ws.map Effect.write, cns2)
        else
          (none,
           ev4 ++ [Effect.event EventType.warning "Noop"
             ("Nothing done for consumer " ++ quoteStr spec.durableName)],
           cns)

/-- processConsumer (consumer.go lines 29-117): the lister read with its
IsNotFound short-circuit, the body, and the two deferred handlers — the
inner one upserts the Errored status on failure and merges a status
write failure into the error, the outer one wraps the returned error
with the processing context. -/
def processConsumer (w : World) : Option GoError × List Effect :=
  match w.lister with
  | Except.error e =>
    if e.isK8sNotFound then (none, [])
    else (some (wrapErr "failed to process consumer" e), [])
  | Except.ok cns =>
    match processBody w cns with
    | (none, tr, _) => (none, tr)
    | (some e, tr, cnsAfter) =>
      match setConsumerErrored w.now cnsAfter w.ifc e with
      | (Except.ok _, ws) =>
        (some (wrapErr "failed to process consumer" e), tr ++ ws.map Effect.write)
      | (Except.error serr, ws) =>
        (some (wrapErr "failed to process consumer" (mergeErr e serr)),
         tr ++ ws.map Effect.write)

/-! Helper lemmas about the finalizer and condition helpers. -/

theorem mem_addFinalizer_self (fs : List String) (key : String) :
    key ∈ addFinalizer fs key := by
  unfold addFinalizer
  by_cases h : key ∈ fs
  · simp [h]
  · simp [h]

theorem mem_addFinalizer_iff (fs : List String) (k key : String) (h : k ≠ key) :
    k ∈ addFinalizer fs key ↔ k ∈ fs := by
  unfold addFinalizer
  by_cases hm : key ∈ fs
  · simp [hm]
  · simp [hm, h]

theorem not_mem_removeFinalizer_self (fs : List String) (key : String) :
    key ∉ removeFinalizer fs key := by
  unfold removeFinalizer
  simp

theorem mem_removeFinalizer_iff (fs : List String) (k key : String) (h : k ≠ key) :
    k ∈ removeFinalizer fs key ↔ k ∈ fs := by
  unfold removeFinalizer
  simp [h]

theorem streamFinalizerKey_ne_consumerFinalizerKey :
    streamFinalizerKey ≠ consumerFinalizerKey := by
  unfold streamFinalizerKey consumerFinalizerKey
  decide

theorem mem_upsertCondition_self (cs : List Condition) (c : Condition) :
    c ∈ upsertCondition cs c := by
  induction cs with
  | nil => simp [upsertCondition]
  | cons d rest ih =>
    unfold upsertCondition
    by_cases h : d.ctype = c.ctype
    · simp [h]
    · simp only [h, if_false]
      exact List.mem_cons_of_mem d ih

theorem upsertCondition_of_forall_ne (cs : List Condition) (c : Condition)
    (h : ∀ d ∈ cs, d.ctype ≠ c.ctype) :
    upsertCondition cs c = cs ++ [c] := by
  induction cs with
  | nil => simp [upsertCondition]
  | cons d rest ih =>
    unfold upsertCondition
    have hd : d.ctype ≠ c.ctype := h d (List.mem_cons_self d rest)
    simp only [hd, if_false, List.cons_append, List.cons.injEq, true_and]
    exact ih (fun x hx => h x (List.mem_cons_of_mem d hx))

theorem length_upsertCondition_of_mem (cs : List Condition) (c : Condition)
    (h : ∃ d ∈ cs, d.ctype = c.ctype) :
    (upsertCondition cs c).length = cs.length := by
  induction cs with
  | nil => simp at h
  | cons d rest ih =>
    unfold upsertCondition
    by_cases hd : d.ctype = c.ctype
    · simp [hd]
    · simp only [hd, if_false, List.length_cons]
      rcases h with ⟨x, hx, hxt⟩
      rcases List.mem_cons.mp hx with rfl | hx2
      · exact absurd hxt hd
      · rw [ih ⟨x, hx2, hxt⟩]

theorem mem_map_ctype_upsertCondition (cs : List Condition) (c : Condition)
    (t : String) (h : t ∈ (upsertCondition cs c).map Condition.ctype) :
    t ∈ cs.map Condition.ctype ∨ t = c.ctype := by
  induction cs with
  | nil =>
    simp [upsertCondition] at h
    exact Or.inr h
  | cons d rest ih =>
    unfold upsertCondition at h
    by_cases hd : d.ctype = c.ctype
    · simp only [hd, if_true, List.map_cons, List.mem_cons] at h
      rcases h with rfl | h2
      · exact Or.inr rfl
      · exact Or.inl (by rw [List.map_cons]; exact List.mem_cons_of_mem _ h2)
    · simp only [hd, if_false, List.map_cons, List.mem_cons] at h
      rcases h with rfl | h2
      · exact Or.inl (by rw [List.map_cons]; exact List.mem_cons_self _ _)
      · rcases ih h2 with h3 | h3
        · exact Or.inl (by rw [List.map_cons]; exact List.mem_cons_of_mem _ h3)
        · exact Or.inr h3

theorem nodup_map_ctype_upsertCondition (cs : List Condition) (c : Condition)
    (h : (cs.map Condition.ctype).Nodup) :
    ((upsertCondition cs c).map Condition.ctype).Nodup := by
  induction cs with
  | nil => simp [upsertCondition]
  | cons d rest ih =>
    rw [List.map_cons, List.nodup_cons] at h
    unfold upsertCondition
    by_cases hd : d.ctype = c.ctype
    · simp only [hd, if_true, List.map_cons, List.nodup_cons]
      exact ⟨by rw [← hd]; exact h.1, h.2⟩
    · simp only [hd, if_false, List.map_cons, List.nodup_cons]
      refine ⟨fun hmem => ?_, ih h.2⟩
      rcases mem_map_ctype_upsertCondition rest c d.ctype hmem with h3 | h3
      · exact h.1 h3
      · exact hd h3

/-- C8: consumerExists returns exists=false with no error exactly when
LoadConsumer fails with the distinguished NotFound ApiError kind; it returns
exists=true with no error when LoadConsumer succeeds; and it propagates every
other LoadConsumer error to its caller with added context. -/
theorem consumerExists_spec (c : JsmClient) (stream consumer : String) :
    (consumerExists c stream consumer = Except.ok false ↔
      ∃ e, c.loadConsumerErr = some e ∧ e.isApiNotFound = true) ∧
    (consumerExists c stream consumer = Except.ok true ↔ c.loadConsumerErr = none) ∧
    (∀ e, c.loadConsumerErr = some e → e.isApiNotFound = false →
      consumerExists c stream consumer =
        Except.error (wrapErr "failed to check if consumer exists" e)) := by
  refine ⟨?_, ?_, ?_⟩
  · cases h : c.loadConsumerErr with
    | none => simp [consumerExists, h]
    | some e =>
      by_cases hnf : e.isApiNotFound = true
      · simp [consumerExists, h, hnf]
      · simp only [Bool.not_eq_true] at hnf
        simp [consumerExists, h, hnf]
  · cases h : c.loadConsumerErr with
    | none => simp [consumerExists, h]
    | some e =>
      by_cases hnf : e.isApiNotFound = true
      · simp [consumerExists, h, hnf]
      · simp only [Bool.not_eq_true] at hnf
        simp [consumerExists, h, hnf]
  · intro e he hnf
    simp [consumerExists, he, hnf]

/-- C8 witness: a backend error from LoadConsumer (not the NotFound kind) is
wrapped and propagated by consumerExists. -/
theorem consumerExists_spec_witness :
    consumerExists
      { connectErr := none, loadConsumerErr := some { msg := "backend boom" },
        newConsumerErr := none, deleteErr := none } "s" "d" =
      Except.error (wrapErr "failed to check if consumer exists" { msg := "backend boom" }) :=
  (consumerExists_spec
    { connectErr := none, loadConsumerErr := some { msg := "backend boom" },
      newConsumerErr := none, deleteErr := none } "s" "d").2.2
    { msg := "backend boom" } rfl rfl

/-- C9: when the lister reports the Consumer object absent (NotFound),
processConsumer returns success with an empty effect trace — no backend
connection, no remote or store mutation, no event; any other lister error is
returned as a failure, still with an empty trace. -/
theorem processConsumer_missing_object (w : World) (e : GoError)
    (hl : w.lister = Except.error e) :
    (e.isK8sNotFound = true → processConsumer w = (none, [])) ∧
    (e.isK8sNotFound = false →
      processConsumer w = (some (wrapErr "failed to process consumer" e), [])) := by
  constructor
  · intro h
    simp [processConsumer, hl, h]
  · intro h
    simp [processConsumer, hl, h]

/-- C9 witness: a NotFound lister response yields success and no effects. -/
theorem processConsumer_missing_object_witness :
    processConsumer
      { lister := Except.error { msg := "not found", isK8sNotFound := true },
        credsErr := none,
        client := { connectErr := none, loadConsumerErr := none,
                    newConsumerErr := none, deleteErr := none },
        ifc := { updateErr := none, updateStatusErr := none },
        now := "T" } = (none, []) :=
  (processConsumer_missing_object
    { lister := Except.error { msg := "not found", isK8sNotFound := true },
      credsErr := none,
      client := { connectErr := none, loadConsumerErr := none,
                  newConsumerErr := none, deleteErr := none },
      ifc := { updateErr := none, updateStatusErr := none },
      now := "T" } { msg := "not found", isK8sNotFound := true } rfl).1 rfl

/-- C10: condition upsert appends when no entry of the new Type exists,
replaces (preserving length, and containing the new condition) when one does,
preserves at-most-one-entry-per-Type, and applying it twice with identical
input yields a list of the same length as applying it once. -/
theorem upsertCondition_spec :
    (∀ cs c, (∀ d ∈ cs, d.ctype ≠ c.ctype) → upsertCondition cs c = cs ++ [c]) ∧
    (∀ cs c, (∃ d ∈ cs, d.ctype = c.ctype) →
      (upsertCondition cs c).length = cs.length ∧ c ∈ upsertCondition cs c) ∧
    (∀ cs c, (cs.map Condition.ctype).Nodup →
      ((upsertCondition cs c).map Condition.ctype).Nodup) ∧
    (∀ cs c, (upsertCondition (upsertCondition cs c) c).length =
      (upsertCondition cs c).length) := by
  refine ⟨upsertCondition_of_forall_ne, ?_, nodup_map_ctype_upsertCondition, ?_⟩
  · intro cs c h
    exact ⟨length_upsertCondition_of_mem cs c h, mem_upsertCondition_self cs c⟩
  · intro cs c
    exact length_upsertCondition_of_mem (upsertCondition cs c) c
      ⟨c, mem_upsertCondition_self cs c, rfl⟩

/-- C10 witness: append on a fresh Type, and length-preserving replacement on
an existing Type, at concrete inputs. -/
theorem upsertCondition_spec_witness :
    upsertCondition
      [{ ctype := "Other", status := "True", lastTransitionTime := "t0",
         reason := "R", message := "m0" }]
      { ctype := "Ready", status := "True", lastTransitionTime := "t1",
        reason := "Created", message := "m1" } =
      [{ ctype := "Other", status := "True", lastTransitionTime := "t0",
         reason := "R", message := "m0" }] ++
      [{ ctype := "Ready", status := "True", lastTransitionTime := "t1",
         reason := "Created", message := "m1" }] ∧
    (upsertCondition
      [{ ctype := "Ready", status := "True", lastTransitionTime := "t1",
         reason := "Created", message := "m1" }]
      { ctype := "Ready", status := "False", lastTransitionTime := "t2",
        reason := "Errored", message := "m2" }).length =
      [({ ctype := "Ready", status := "True", lastTransitionTime := "t1",
          reason := "Created", message := "m1" } : Condition)].length :=
  ⟨upsertCondition_spec.1 _ _ (by decide),
   (upsertCondition_spec.2.1 _ _
     ⟨{ ctype := "Ready", status := "True", lastTransitionTime := "t1",
        reason := "Created", message := "m1" }, by decide, by decide⟩).1⟩

/-- C1: for a cached Consumer with DeletionTimestamp set, processConsumer
deletes the remote consumer (an already-absent remote consumer, i.e. a
NotFound from LoadConsumer, is success and Delete is not called) and then
removes the finalizer token the controller uses from the object's finalizer
list via an Update write, regardless of whether Generation differs from
Status.ObservedGeneration; no status write is performed on this path. -/
theorem processConsumer_deletion_path (w : World) (cns : Consumer)
    (hl : w.lister = Except.ok cns)
    (hdel : cns.deletionTimestamp.isSome = true)
    (hcreds : w.credsErr = none)
    (hconn : w.client.connectErr = none)
    (hload : w.client.loadConsumerErr = none ∨
      ∃ e, w.client.loadConsumerErr = some e ∧ e.isApiNotFound = true)
    (hrem : w.client.deleteErr = none)
    (hupd : w.ifc.updateErr = none) :
    (processConsumer w).1 = none ∧
    Effect.write (StoreWrite.update (removeFinalizer cns.finalizers streamFinalizerKey))
      ∈ (processConsumer w).2 ∧
    (∀ st, Effect.write (StoreWrite.updateStatus st) ∉ (processConsumer w).2) ∧
    (w.client.loadConsumerErr = none →
      Effect.remote (RemoteCall.deleteConsumer cns.spec.streamName cns.spec.durableName)
        ∈ (processConsumer w).2) ∧
    (∀ e, w.client.loadConsumerErr = some e →
      Effect.remote (RemoteCall.deleteConsumer cns.spec.streamName cns.spec.durableName)
        ∉ (processConsumer w).2) := by
  rcases hload with hnone | ⟨e, he, hnf⟩
  · simp [processConsumer, hl, processBody, hcreds, hconn, consumerExists, hnone, hdel,
      deleteConsumer, hrem, clearConsumerFinalizer, hupd]
  · simp [processConsumer, hl, processBody, hcreds, hconn, consumerExists, he, hnf, hdel,
      deleteConsumer, hrem, clearConsumerFinalizer, hupd]

/-- Concrete deleting Consumer used by the C1 witness. -/
def delWitnessCns : Consumer :=
  { nspace := "default", name := "my-consumer", generation := 2,
    deletionTimestamp := some 1600216923, finalizers := [consumerFinalizerKey],
    spec := { durableName := "my-consumer", streamName := "st",
              servers := ["nats://one"], credentialsSecret := none },
    status := { observedGeneration := 2, conditions := [] } }

/-- Concrete world for the C1 witness: deleting object, healthy backend
with the remote consumer present, healthy store. -/
def delWitnessWorld : World :=
  { lister := Except.ok delWitnessCns, credsErr := none,
    client := { connectErr := none, loadConsumerErr := none,
                newConsumerErr := none, deleteErr := none },
    ifc := { updateErr := none, updateStatusErr := none },
    now := "T" }

/-- C1 witness: on the concrete deleting Consumer (whose generation equals
its observed generation) the run succeeds, the finalizer-clearing Update
write happens, and the remote Delete is called. -/
theorem processConsumer_deletion_path_witness :
    (processConsumer delWitnessWorld).1 = none ∧
    Effect.write (StoreWrite.update
        (removeFinalizer delWitnessCns.finalizers streamFinalizerKey))
      ∈ (processConsumer delWitnessWorld).2 ∧
    Effect.remote (RemoteCall.deleteConsumer "st" "my-consumer")
      ∈ (processConsumer delWitnessWorld).2 :=
  ⟨(processConsumer_deletion_path delWitnessWorld delWitnessCns rfl rfl rfl rfl
      (Or.inl rfl) rfl rfl).1,
   (processConsumer_deletion_path delWitnessWorld delWitnessCns rfl rfl rfl rfl
      (Or.inl rfl) rfl rfl).2.1,
   (processConsumer_deletion_path delWitnessWorld delWitnessCns rfl rfl rfl rfl
      (Or.inl rfl) rfl rfl).2.2.2.1 rfl⟩

/-- C2: for a cached Consumer with DeletionTimestamp unset, a changed
generation and no existing remote consumer (LoadConsumer reports NotFound),
processConsumer creates the remote consumer via NewConsumer, adds the
finalizer token to the object via an Update write, and persists a status
whose ObservedGeneration equals Generation and whose conditions carry a
Ready condition with Status True and Reason Created, returning success. -/
theorem processConsumer_create_path (w : World) (cns : Consumer) (e : GoError)
    (hl : w.lister = Except.ok cns)
    (hdel : cns.deletionTimestamp = none)
    (hgen : cns.generation ≠ cns.status.observedGeneration)
    (hcreds : w.credsErr = none)
    (hconn : w.client.connectErr = none)
    (hload : w.client.loadConsumerErr = some e)
    (hnf : e.isApiNotFound = true)
    (hnew : w.client.newConsumerErr = none)
    (hupd : w.ifc.updateErr = none)
    (hust : w.ifc.updateStatusErr = none) :
    (processConsumer w).1 = none ∧
    Effect.remote (RemoteCall.newConsumer cns.spec.streamName cns.spec.durableName)
      ∈ (processConsumer w).2 ∧
    Effect.write (StoreWrite.update (addFinalizer cns.finalizers streamFinalizerKey))
      ∈ (processConsumer w).2 ∧
    streamFinalizerKey ∈ addFinalizer cns.finalizers streamFinalizerKey ∧
    (∃ st, Effect.write (StoreWrite.updateStatus st) ∈ (processConsumer w).2 ∧
      st.observedGeneration = cns.generation ∧
      ∃ c ∈ st.conditions, c.ctype = readyCondType ∧ c.status = "True" ∧
        c.reason = "Created") := by
  refine ⟨?_, ?_, ?_, mem_addFinalizer_self _ _, ?_⟩
  · simp [processConsumer, hl, processBody, hcreds, hconn, consumerExists, hload, hnf,
      hdel, hgen, createConsumer, hnew, setConsumerFinalizer, hupd, setConsumerOK, hust]
  · simp [processConsumer, hl, processBody, hcreds, hconn, consumerExists, hload, hnf,
      hdel, hgen, createConsumer, hnew, setConsumerFinalizer, hupd, setConsumerOK, hust]
  · simp [processConsumer, hl, processBody, hcreds, hconn, consumerExists, hload, hnf,
      hdel, hgen, createConsumer, hnew, setConsumerFinalizer, hupd, setConsumerOK, hust]
  · refine ⟨(consumerOKStatus w.now
      { cns with finalizers := addFinalizer cns.finalizers streamFinalizerKey }), ?_, ?_, ?_⟩
    · simp [processConsumer, hl, processBody, hcreds, hconn, consumerExists, hload, hnf,
        hdel, hgen, createConsumer, hnew, setConsumerFinalizer, hupd, setConsumerOK, hust]
    · simp [consumerOKStatus]
    · exact ⟨{ ctype := readyCondType, status := "True", lastTransitionTime := w.now,
               reason := "Created", message := "Consumer successfully created" },
        mem_upsertCondition_self _ _, rfl, rfl, rfl⟩

/-- Concrete not-yet-reconciled Consumer used by the C2 witness. -/
def createWitnessCns : Consumer :=
  { nspace := "default", name := "my-consumer", generation := 1,
    deletionTimestamp := none, finalizers := [consumerFinalizerKey],
    spec := { durableName := "my-consumer", streamName := "st",
              servers := [], credentialsSecret := none },
    status := { observedGeneration := 0, conditions := [] } }

/-- Concrete world for the C2 witness: remote consumer absent (NotFound
from LoadConsumer), all other operations succeed. -/
def createWitnessWorld : World :=
  { lister := Except.ok createWitnessCns, credsErr := none,
    client := { connectErr := none,
                loadConsumerErr := some { msg := "not found", isApiNotFound := true },
                newConsumerErr := none, deleteErr := none },
    ifc := { updateErr := none, updateStatusErr := none },
    now := "T" }

/-- C2 witness: on the concrete fresh Consumer the run succeeds, NewConsumer
is called, the finalizer-adding Update write happens, and a status carrying
ObservedGeneration equal to Generation and a Ready=True/Created condition is
persisted. -/
theorem processConsumer_create_path_witness :
    (processConsumer createWitnessWorld).1 = none ∧
    Effect.remote (RemoteCall.newConsumer "st" "my-consumer")
      ∈ (processConsumer createWitnessWorld).2 ∧
    Effect.write (StoreWrite.update
        (addFinalizer createWitnessCns.finalizers streamFinalizerKey))
      ∈ (processConsumer createWitnessWorld).2 ∧
    streamFinalizerKey ∈ addFinalizer createWitnessCns.finalizers streamFinalizerKey ∧
    (∃ st, Effect.write (StoreWrite.updateStatus st) ∈ (processConsumer createWitnessWorld).2 ∧
      st.observedGeneration = createWitnessCns.generation ∧
      ∃ c ∈ st.conditions, c.ctype = readyCondType ∧ c.status = "True" ∧
        c.reason = "Created") :=
  processConsumer_create_path createWitnessWorld createWitnessCns
    { msg := "not found", isApiNotFound := true }
    rfl rfl (by decide) rfl rfl rfl rfl rfl rfl rfl

/-- Observer: is the effect a Warning event. -/
def isWarningEvent : Effect → Bool
  | Effect.event EventType.warning _ _ => true
  | _ => false

/-- Observer: is the effect a store write (Update or UpdateStatus). -/
def isWriteEffect : Effect → Bool
  | Effect.write _ => true
  | _ => false

/-- Observer: is the effect a mutating remote call (NewConsumer or the
Delete on a consumer handle) as opposed to Connect or LoadConsumer. -/
def isMutatingRemote : Effect → Bool
  | Effect.remote (RemoteCall.newConsumer _ _) => true
  | Effect.remote (RemoteCall.deleteConsumer _ _) => true
  | _ => false

/-- C3: for a cached Consumer that is not deleting, whose generation differs
from the observed generation, and whose remote consumer exists, processConsumer
performs no mutating remote call (in particular no remote update operation —
the jsm client interface used by the controller has none for consumers) and no
status or finalizer write, emits exactly one Warning event and that event is
titled Updating, and returns success. -/
theorem processConsumer_update_path (w : World) (cns : Consumer)
    (hl : w.lister = Except.ok cns)
    (hdel : cns.deletionTimestamp = none)
    (hgen : cns.generation ≠ cns.status.observedGeneration)
    (hcreds : w.credsErr = none)
    (hconn : w.client.connectErr = none)
    (hload : w.client.loadConsumerErr = none) :
    (processConsumer w).1 = none ∧
    (processConsumer w).2.countP isMutatingRemote = 0 ∧
    (processConsumer w).2.countP isWriteEffect = 0 ∧
    (processConsumer w).2.countP isWarningEvent = 1 ∧
    Effect.event EventType.warning "Updating"
      ("Consumer updates (" ++ quoteStr cns.spec.durableName ++ " on "
        ++ quoteStr cns.spec.streamName ++ ") are not allowed, recreate to update")
      ∈ (processConsumer w).2 := by
  simp [processConsumer, hl, processBody, hcreds, hconn, consumerExists, hload, hdel, hgen,
    List.countP_cons, isMutatingRemote, isWriteEffect, isWarningEvent]

/-- Concrete changed, existing, non-deleting Consumer used by the C3 witness. -/
def updateWitnessCns : Consumer :=
  { nspace := "default", name := "my-consumer", generation := 2,
    deletionTimestamp := none, finalizers := [consumerFinalizerKey],
    spec := { durableName := "my-consumer", streamName := "st",
              servers := [], credentialsSecret := none },
    status := { observedGeneration := 1, conditions := [] } }

/-- Concrete world for the C3 witness: remote consumer exists, backend and
store healthy. -/
def updateWitnessWorld : World :=
  { lister := Except.ok updateWitnessCns, credsErr := none,
    client := { connectErr := none, loadConsumerErr := none,
                newConsumerErr := none, deleteErr := none },
    ifc := { updateErr := none, updateStatusErr := none },
    now := "T" }

/-- C3 witness: the concrete changed, existing, non-deleting Consumer yields
success, no mutating remote call, no store write and exactly one Warning
event, titled Updating. -/
theorem processConsumer_update_path_witness :
    (processConsumer updateWitnessWorld).1 = none ∧
    (processConsumer updateWitnessWorld).2.countP isMutatingRemote = 0 ∧
    (processConsumer updateWitnessWorld).2.countP isWriteEffect = 0 ∧
    (processConsumer updateWitnessWorld).2.countP isWarningEvent = 1 ∧
    Effect.event EventType.warning "Updating"
      ("Consumer updates (" ++ quoteStr updateWitnessCns.spec.durableName ++ " on "
        ++ quoteStr updateWitnessCns.spec.streamName ++ ") are not allowed, recreate to update")
      ∈ (processConsumer updateWitnessWorld).2 :=
  processConsumer_update_path updateWitnessWorld updateWitnessCns
    rfl rfl (by decide) rfl rfl rfl

/-- C4: whenever the body of processConsumer (everything after the lister
read) fails, the returned error is non-nil and wrapped with the processing
context; a Ready condition with Status False, Reason Errored, and Message
equal to the body error's text is upserted into the status and pushed via a
status write; and a failure of that status write is merged into the returned
error rather than discarded. -/
theorem processConsumer_error_path (w : World) (cns : Consumer) (e : GoError)
    (hl : w.lister = Except.ok cns)
    (hbody : (processBody w cns).1 = some e) :
    (∃ e2, (processConsumer w).1 = some e2) ∧
    (w.ifc.updateStatusErr = none →
      (processConsumer w).1 = some (wrapErr "failed to process consumer" e)) ∧
    (∀ serr, w.ifc.updateStatusErr = some serr →
      (processConsumer w).1 = some (wrapErr "failed to process consumer"
        (mergeErr e (wrapErr "failed to set consumer errored status" serr)))) ∧
    (∃ st, Effect.write (StoreWrite.updateStatus st) ∈ (processConsumer w).2 ∧
      ∃ c ∈ st.conditions, c.ctype = readyCondType ∧ c.status = "False" ∧
        c.reason = "Errored" ∧ c.message = e.msg) := by
  rcases hp : processBody w cns with ⟨oe, tr, cnsA⟩
  rw [hp] at hbody
  simp only at hbody
  subst hbody
  cases hust : w.ifc.updateStatusErr with
  | none =>
    refine ⟨?_, ?_, ?_, ?_⟩
    · exact ⟨wrapErr "failed to process consumer" e,
        by simp [processConsumer, hl, hp, setConsumerErrored, hust]⟩
    · intro _
      simp [processConsumer, hl, hp, setConsumerErrored, hust]
    · intro serr hs
      simp at hs
    · refine ⟨consumerErroredStatus w.now cnsA e, ?_, ?_⟩
      · simp [processConsumer, hl, hp, setConsumerErrored, hust]
      · exact ⟨{ ctype := readyCondType, status := "False", lastTransitionTime := w.now,
                 reason := "Errored", message := e.msg },
          mem_upsertCondition_self _ _, rfl, rfl, rfl, rfl⟩
  | some serr =>
    refine ⟨?_, ?_, ?_, ?_⟩
    · exact ⟨wrapErr "failed to process consumer"
          (mergeErr e (wrapErr "failed to set consumer errored status" serr)),
        by simp [processConsumer, hl, hp, setConsumerErrored, hust]⟩
    · intro hnone
      simp at hnone
    · intro serr2 hs
      injection hs with h2
      subst h2
      simp [processConsumer, hl, hp, setConsumerErrored, hust]
    · refine ⟨consumerErroredStatus w.now cnsA e, ?_, ?_⟩
      · simp [processConsumer, hl, hp, setConsumerErrored, hust]
      · exact ⟨{ ctype := readyCondType, status := "False", lastTransitionTime := w.now,
                 reason := "Errored", message := e.msg },
          mem_upsertCondition_self _ _, rfl, rfl, rfl, rfl⟩

/-- Concrete world for the C4 witness: the backend connection fails (the
scenario of the process-error repository test) and the status write succeeds. -/
def errorWitnessWorld : World :=
  { lister := Except.ok
      { nspace := "default", name := "my-consumer", generation := 1,
        deletionTimestamp := none, finalizers := [consumerFinalizerKey],
        spec := { durableName := "my-consumer", streamName := "st",
                  servers := [], credentialsSecret := none },
        status := { observedGeneration := 0, conditions := [] } },
    credsErr := none,
    client := { connectErr := some { msg := "nats connect failed" },
                loadConsumerErr := none, newConsumerErr := none, deleteErr := none },
    ifc := { updateErr := none, updateStatusErr := none },
    now := "T" }

/-- C4 witness: with a failing backend connection the run returns the wrapped
error and pushes a Ready=False/Errored status write carrying the error text. -/
theorem processConsumer_error_path_witness :
    (∃ e2, (processConsumer errorWitnessWorld).1 = some e2) ∧
    (processConsumer errorWitnessWorld).1 =
      some (wrapErr "failed to process consumer" { msg := "nats connect failed" }) ∧
    (∃ st, Effect.write (StoreWrite.updateStatus st) ∈ (processConsumer errorWitnessWorld).2 ∧
      ∃ c ∈ st.conditions, c.ctype = readyCondType ∧ c.status = "False" ∧
        c.reason = "Errored" ∧ c.message = GoError.msg { msg := "nats connect failed" }) :=
  ⟨(processConsumer_error_path errorWitnessWorld
      { nspace := "default", name := "my-consumer", generation := 1,
        deletionTimestamp := none, finalizers := [consumerFinalizerKey],
        spec := { durableName := "my-consumer", streamName := "st",
                  servers := [], credentialsSecret := none },
        status := { observedGeneration := 0, conditions := [] } }
      { msg := "nats connect failed" } rfl rfl).1,
   (processConsumer_error_path errorWitnessWorld
      { nspace := "default", name := "my-consumer", generation := 1,
        deletionTimestamp := none, finalizers := [consumerFinalizerKey],
        spec := { durableName := "my-consumer", streamName := "st",
                  servers := [], credentialsSecret := none },
        status := { observedGeneration := 0, conditions := [] } }
      { msg := "nats connect failed" } rfl rfl).2.1 rfl,
   (processConsumer_error_path errorWitnessWorld
      { nspace := "default", name := "my-consumer", generation := 1,
        deletionTimestamp := none, finalizers := [consumerFinalizerKey],
        spec := { durableName := "my-consumer", streamName := "st",
                  servers := [], credentialsSecret := none },
        status := { observedGeneration := 0, conditions := [] } }
      { msg := "nats connect failed" } rfl rfl).2.2.2⟩

/-- Observer: does the trace contain an event with the given reason. -/
def hasEventReason (tr : List Effect) (r : String) : Bool :=
  tr.any (fun ef => match ef with
    | Effect.event _ r2 _ => r2 = r
    | _ => false)

/-- C5: processConsumer selects its action by the fixed classification —
delete whenever DeletionTimestamp is set, regardless of the generation;
create exactly when not deleting, the generation changed and the remote
consumer is absent; update exactly when not deleting, the generation changed
and the remote consumer exists; and in every remaining case it performs no
remote or store mutation, emits a Noop warning event, and returns success. -/
theorem processConsumer_classification (w : World) (cns : Consumer)
    (hl : w.lister = Except.ok cns)
    (hcreds : w.credsErr = none)
    (hconn : w.client.connectErr = none)
    (hload : w.client.loadConsumerErr = none ∨
      ∃ e, w.client.loadConsumerErr = some e ∧ e.isApiNotFound = true) :
    (cns.deletionTimestamp.isSome = true →
      hasEventReason (processConsumer w).2 "Deleting" = true ∧
      hasEventReason (processConsumer w).2 "Creating" = false ∧
      hasEventReason (processConsumer w).2 "Updating" = false ∧
      hasEventReason (processConsumer w).2 "Noop" = false) ∧
    (cns.deletionTimestamp = none →
      cns.generation ≠ cns.status.observedGeneration →
      ((∃ e, w.client.loadConsumerErr = some e ∧ e.isApiNotFound = true) →
        hasEventReason (processConsumer w).2 "Creating" = true ∧
        hasEventReason (processConsumer w).2 "Deleting" = false ∧
        hasEventReason (processConsumer w).2 "Updating" = false ∧
        hasEventReason (processConsumer w).2 "Noop" = false) ∧
      (w.client.loadConsumerErr = none →
        hasEventReason (processConsumer w).2 "Updating" = true ∧
        hasEventReason (processConsumer w).2 "Creating" = false ∧
        hasEventReason (processConsumer w).2 "Deleting" = false ∧
        hasEventReason (processConsumer w).2 "Noop" = false)) ∧
    (cns.deletionTimestamp = none →
      cns.generation = cns.status.observedGeneration →
      (processConsumer w).1 = none ∧
      (processConsumer w).2.countP isMutatingRemote = 0 ∧
      (processConsumer w).2.countP isWriteEffect = 0 ∧
      Effect.event EventType.warning "Noop"
          ("Nothing done for consumer " ++ quoteStr cns.spec.durableName)
        ∈ (processConsumer w).2 ∧
      hasEventReason (processConsumer w).2 "Creating" = false ∧
      hasEventReason (processConsumer w).2 "Deleting" = false ∧
      hasEventReason (processConsumer w).2 "Updating" = false) := by
  refine ⟨?_, ?_, ?_⟩
  · intro hdt
    rcases hload with hnone | ⟨e, he, hnf⟩
    · cases hde : w.client.deleteErr <;> cases hue : w.ifc.updateErr <;>
        cases huse : w.ifc.updateStatusErr <;>
        simp [processConsumer, hl, processBody, hcreds, hconn, consumerExists, hnone, hdt,
          deleteConsumer, hde, clearConsumerFinalizer, hue, setConsumerErrored, huse,
          hasEventReason]
    · cases hue : w.ifc.updateErr <;> cases huse : w.ifc.updateStatusErr <;>
        simp [processConsumer, hl, processBody, hcreds, hconn, consumerExists, he, hnf, hdt,
          deleteConsumer, clearConsumerFinalizer, hue, setConsumerErrored, huse,
          hasEventReason]
  · intro hdt hg
    refine ⟨?_, ?_⟩
    · rintro ⟨e, he, hnf⟩
      cases hne : w.client.newConsumerErr <;> cases hue : w.ifc.updateErr <;>
        cases huse : w.ifc.updateStatusErr <;>
        simp [processConsumer, hl, processBody, hcreds, hconn, consumerExists, he, hnf, hdt,
          hg, createConsumer, hne, setConsumerFinalizer, hue, setConsumerOK,
          setConsumerErrored, huse, hasEventReason]
    · intro hnone
      simp [processConsumer, hl, processBody, hcreds, hconn, consumerExists, hnone, hdt,
        hg, hasEventReason]
  · intro hdt hg
    rcases hload with hnone | ⟨e, he, hnf⟩
    · simp [processConsumer, hl, processBody, hcreds, hconn, consumerExists, hnone, hdt,
        hg, hasEventReason, isMutatingRemote, isWriteEffect, List.countP_cons]
    · simp [processConsumer, hl, processBody, hcreds, hconn, consumerExists, he, hnf, hdt,
        hg, hasEventReason, isMutatingRemote, isWriteEffect, List.countP_cons]

/-- Concrete unchanged, existing, non-deleting Consumer for the C5 witness. -/
def noopWitnessCns : Consumer :=
  { nspace := "default", name := "my-consumer", generation := 1,
    deletionTimestamp := none, finalizers := [consumerFinalizerKey],
    spec := { durableName := "my-consumer", streamName := "st",
              servers := [], credentialsSecret := none },
    status := { observedGeneration := 1, conditions := [] } }

/-- Concrete world for the C5 witness: remote consumer exists, everything
healthy, and the object generation is already observed. -/
def noopWitnessWorld : World :=
  { lister := Except.ok noopWitnessCns, credsErr := none,
    client := { connectErr := none, loadConsumerErr := none,
                newConsumerErr := none, deleteErr := none },
    ifc := { updateErr := none, updateStatusErr := none },
    now := "T" }

/-- C5 witness: the concrete unchanged non-deleting Consumer falls into the
no-op case — success, no remote or store mutation, a Noop warning event, and
none of the Creating/Deleting/Updating actions. -/
theorem processConsumer_classification_witness :
    (processConsumer noopWitnessWorld).1 = none ∧
    (processConsumer noopWitnessWorld).2.countP isMutatingRemote = 0 ∧
    (processConsumer noopWitnessWorld).2.countP isWriteEffect = 0 ∧
    Effect.event EventType.warning "Noop"
        ("Nothing done for consumer " ++ quoteStr noopWitnessCns.spec.durableName)
      ∈ (processConsumer noopWitnessWorld).2 ∧
    hasEventReason (processConsumer noopWitnessWorld).2 "Creating" = false ∧
    hasEventReason (processConsumer noopWitnessWorld).2 "Deleting" = false ∧
    hasEventReason (processConsumer noopWitnessWorld).2 "Updating" = false :=
  (processConsumer_classification noopWitnessWorld noopWitnessCns
    rfl rfl rfl (Or.inl rfl)).2.2 rfl rfl

/-- The trace of one full reconciliation is the body trace, followed (only
when the body failed) by the single Errored status write of the deferred
error handler. -/
theorem processConsumer_trace (w : World) (cns : Consumer)
    (hl : w.lister = Except.ok cns) :
    (processConsumer w).2 = (processBody w cns).2.1 ++
      (match (processBody w cns).1 with
       | none => []
       | some e => [Effect.write (StoreWrite.updateStatus
           (consumerErroredStatus w.now (processBody w cns).2.2 e))]) := by
  rcases hp : processBody w cns with ⟨oe, tr, cnsA⟩
  cases oe with
  | none => simp [processConsumer, hl, hp]
  | some e =>
    cases huse : w.ifc.updateStatusErr <;>
      simp [processConsumer, hl, hp, setConsumerErrored, huse]

/-- Inventory of the Update (finalizer) writes a reconciliation can make:
every such write either persists the finalizer list with the token added —
and in that case NewConsumer succeeded and the write follows the NewConsumer
call in the trace — or persists the list with the token removed. -/
theorem processConsumer_update_write_inv (w : World) (cns : Consumer)
    (fins : List String)
    (hl : w.lister = Except.ok cns)
    (hmem : Effect.write (StoreWrite.update fins) ∈ (processConsumer w).2) :
    (fins = addFinalizer cns.finalizers streamFinalizerKey ∧
     w.client.newConsumerErr = none ∧
     [Effect.remote (RemoteCall.newConsumer cns.spec.streamName cns.spec.durableName),
      Effect.write (StoreWrite.update fins)].Sublist (processConsumer w).2) ∨
    fins = removeFinalizer cns.finalizers streamFinalizerKey := by
  have htrace := processConsumer_trace w cns hl
  cases hcreds : w.credsErr with
  | some e0 =>
    simp only [processBody, hcreds] at htrace
    rw [htrace] at hmem
    simp at hmem
  | none =>
  cases hconn : w.client.connectErr with
  | some e0 =>
    simp only [processBody, hcreds, hconn] at htrace
    rw [htrace] at hmem
    simp at hmem
  | none =>
  cases hload : w.client.loadConsumerErr with
  | some e0 =>
    by_cases hnf : e0.isApiNotFound = true
    · cases hdt : cns.deletionTimestamp with
      | some t0 =>
        cases hue : w.ifc.updateErr with
        | some e1 =>
          simp only [processBody, hcreds, hconn, consumerExists, hload, hnf, hdt,
            deleteConsumer, clearConsumerFinalizer, hue] at htrace
          rw [htrace] at hmem
          simp at hmem
          subst hmem
          exact Or.inr rfl
        | none =>
          simp only [processBody, hcreds, hconn, consumerExists, hload, hnf, hdt,
            deleteConsumer, clearConsumerFinalizer, hue] at htrace
          rw [htrace] at hmem
          simp at hmem
          subst hmem
          exact Or.inr rfl
      | none =>
        by_cases hg : cns.generation = cns.status.observedGeneration
        · simp only [processBody, hcreds, hconn, consumerExists, hload, hnf, hdt] at htrace
          rw [htrace] at hmem
          simp [hg] at hmem
        · cases hne : w.client.newConsumerErr with
          | some e1 =>
            simp only [processBody, hcreds, hconn, consumerExists, hload, hnf, hdt,
              createConsumer, hne] at htrace
            rw [htrace] at hmem
            simp [hg] at hmem
          | none =>
            cases hue : w.ifc.updateErr with
            | some e1 =>
              simp only [processBody, hcreds, hconn, consumerExists, hload, hnf, hdt,
                createConsumer, hne, setConsumerFinalizer, hue] at htrace
              rw [htrace] at hmem
              simp [hg] at hmem
              subst hmem
              refine Or.inl ⟨rfl, rfl, ?_⟩
              rw [htrace]
              simp [hg]
              exact List.Sublist.cons _ (List.Sublist.cons _ (List.Sublist.cons _
                (List.Sublist.cons _ (List.Sublist.cons _ (List.Sublist.cons₂ _
                  (List.Sublist.cons₂ _ (List.nil_sublist _)))))))
            | none =>
              cases huse : w.ifc.updateStatusErr with
              | some e1 =>
                simp only [processBody, hcreds, hconn, consumerExists, hload, hnf, hdt,
                  createConsumer, hne, setConsumerFinalizer, hue, setConsumerOK,
                  huse] at htrace
                rw [htrace] at hmem
                simp [hg] at hmem
                subst hmem
                refine Or.inl ⟨rfl, rfl, ?_⟩
                rw [htrace]
                simp [hg]
                exact List.Sublist.cons _ (List.Sublist.cons _ (List.Sublist.cons _
                  (List.Sublist.cons _ (List.Sublist.cons _ (List.Sublist.cons₂ _
                    (List.Sublist.cons₂ _ (List.nil_sublist _)))))))
              | none =>
                simp only [processBody, hcreds, hconn, consumerExists, hload, hnf, hdt,
                  createConsumer, hne, setConsumerFinalizer, hue, setConsumerOK,
                  huse] at htrace
                rw [htrace] at hmem
                simp [hg] at hmem
                subst hmem
                refine Or.inl ⟨rfl, rfl, ?_⟩
                rw [htrace]
                simp [hg]
                exact List.Sublist.cons _ (List.Sublist.cons _ (List.Sublist.cons _
                  (List.Sublist.cons _ (List.Sublist.cons _ (List.Sublist.cons₂ _
                    (List.Sublist.cons₂ _ (List.nil_sublist _)))))))
    · simp only [Bool.not_eq_true] at hnf
      simp only [processBody, hcreds, hconn, consumerExists, hload, hnf] at htrace
      rw [htrace] at hmem
      simp at hmem
  | none =>
    cases hdt : cns.deletionTimestamp with
    | some t0 =>
      cases hde : w.client.deleteErr with
      | some e1 =>
        simp only [processBody, hcreds, hconn, consumerExists, hload, hdt,
          deleteConsumer, hde] at htrace
        rw [htrace] at hmem
        simp at hmem
      | none =>
        cases hue : w.ifc.updateErr with
        | some e1 =>
          simp only [processBody, hcreds, hconn, consumerExists, hload, hdt,
            deleteConsumer, hde, clearConsumerFinalizer, hue] at htrace
          rw [htrace] at hmem
          simp at hmem
          subst hmem
          exact Or.inr rfl
        | none =>
          simp only [processBody, hcreds, hconn, consumerExists, hload, hdt,
            deleteConsumer, hde, clearConsumerFinalizer, hue] at htrace
          rw [htrace] at hmem
          simp at hmem
          subst hmem
          exact Or.inr rfl
    | none =>
      by_cases hg : cns.generation = cns.status.observedGeneration
      · simp only [processBody, hcreds, hconn, consumerExists, hload, hdt] at htrace
        rw [htrace] at hmem
        simp [hg] at hmem
      · simp only [processBody, hcreds, hconn, consumerExists, hload, hdt] at htrace
        rw [htrace] at hmem
        simp [hg] at hmem

/-- C6: any Update write whose persisted finalizer list carries the
controller's finalizer token happens only after createConsumer succeeded:
NewConsumer returned no error and the NewConsumer call precedes the write in
the effect trace.  Hence, after a single reconciliation, a Consumer carrying
the token has a corresponding remote entity unless creation failed before
the finalizer was set. -/
theorem processConsumer_finalizer_implies_created (w : World) (cns : Consumer)
    (fins : List String)
    (hl : w.lister = Except.ok cns)
    (hmem : Effect.write (StoreWrite.update fins) ∈ (processConsumer w).2)
    (hkey : streamFinalizerKey ∈ fins) :
    w.client.newConsumerErr = none ∧
    [Effect.remote (RemoteCall.newConsumer cns.spec.streamName cns.spec.durableName),
     Effect.write (StoreWrite.update fins)].Sublist (processConsumer w).2 := by
  rcases processConsumer_update_write_inv w cns fins hl hmem with ⟨heq, hne, hsub⟩ | heq
  · exact ⟨hne, hsub⟩
  · rw [heq] at hkey
    exact absurd hkey (not_mem_removeFinalizer_self _ _)

/-- Concrete fresh Consumer used by the C6 witness. -/
def invWitnessCns : Consumer :=
  { nspace := "default", name := "c1", generation := 1,
    deletionTimestamp := none, finalizers := [],
    spec := { durableName := "c1", streamName := "st",
              servers := [], credentialsSecret := none },
    status := { observedGeneration := 0, conditions := [] } }

/-- Concrete world for the C6 witness: the create path runs to completion. -/
def invWitnessWorld : World :=
  { lister := Except.ok invWitnessCns, credsErr := none,
    client := { connectErr := none,
                loadConsumerErr := some { msg := "nf", isApiNotFound := true },
                newConsumerErr := none, deleteErr := none },
    ifc := { updateErr := none, updateStatusErr := none },
    now := "T" }

/-- C6 witness: in the concrete create run, the finalizer-carrying Update
write is present, NewConsumer succeeded, and the NewConsumer call precedes
that write in the trace. -/
theorem processConsumer_finalizer_implies_created_witness :
    invWitnessWorld.client.newConsumerErr = none ∧
    [Effect.remote (RemoteCall.newConsumer "st" "c1"),
     Effect.write (StoreWrite.update (addFinalizer [] streamFinalizerKey))].Sublist
      (processConsumer invWitnessWorld).2 :=
  processConsumer_finalizer_implies_created invWitnessWorld invWitnessCns
    (addFinalizer [] streamFinalizerKey) rfl (by decide) (by decide)

/-- C7: the token setConsumerFinalizer adds is the token
clearConsumerFinalizer removes — streamFinalizerKey in both — so what the
create path adds, the delete path removes; consequently processConsumer
never adds or removes the declared consumerFinalizerKey token: every Update
write of a reconciliation carries consumerFinalizerKey exactly when the
cached object already carried it. -/
theorem consumer_finalizer_token_spec :
    (∀ s i, (setConsumerFinalizer s i).2.2 =
      [StoreWrite.update (addFinalizer s.finalizers streamFinalizerKey)]) ∧
    (∀ s i, (clearConsumerFinalizer s i).2.2 =
      [StoreWrite.update (removeFinalizer s.finalizers streamFinalizerKey)]) ∧
    (∀ w cns fins, w.lister = Except.ok cns →
      Effect.write (StoreWrite.update fins) ∈ (processConsumer w).2 →
      (consumerFinalizerKey ∈ fins ↔ consumerFinalizerKey ∈ cns.finalizers)) := by
  refine ⟨?_, ?_, ?_⟩
  · intro s i
    cases h : i.updateErr <;> simp [setConsumerFinalizer, h]
  · intro s i
    cases h : i.updateErr <;> simp [clearConsumerFinalizer, h]
  · intro w cns fins hl hmem
    have hne := Ne.symm streamFinalizerKey_ne_consumerFinalizerKey
    rcases processConsumer_update_write_inv w cns fins hl hmem with ⟨heq, _, _⟩ | heq
    · rw [heq]
      exact mem_addFinalizer_iff cns.finalizers consumerFinalizerKey streamFinalizerKey hne
    · rw [heq]
      exact mem_removeFinalizer_iff cns.finalizers consumerFinalizerKey streamFinalizerKey hne

/-- Concrete deleting Consumer carrying only consumerFinalizerKey, used by
the C7 witness. -/
def tokenWitnessCns : Consumer :=
  { nspace := "default", name := "c1", generation := 1,
    deletionTimestamp := some 7, finalizers := [consumerFinalizerKey],
    spec := { durableName := "c1", streamName := "st",
              servers := [], credentialsSecret := none },
    status := { observedGeneration := 1, conditions := [] } }

/-- Concrete world for the C7 witness: a delete reconciliation of an object
whose only finalizer is the declared consumerFinalizerKey token. -/
def tokenWitnessWorld : World :=
  { lister := Except.ok tokenWitnessCns, credsErr := none,
    client := { connectErr := none, loadConsumerErr := none,
                newConsumerErr := none, deleteErr := none },
    ifc := { updateErr := none, updateStatusErr := none },
    now := "T" }

/-- C7 witness: after the concrete delete reconciliation, the Update write
still carries consumerFinalizerKey — the object keeps that token. -/
theorem consumer_finalizer_token_spec_witness :
    consumerFinalizerKey ∈ removeFinalizer tokenWitnessCns.finalizers streamFinalizerKey ↔
      consumerFinalizerKey ∈ tokenWitnessCns.finalizers :=
  consumer_finalizer_token_spec.2.2 tokenWitnessWorld tokenWitnessCns
    (removeFinalizer tokenWitnessCns.finalizers streamFinalizerKey) rfl (by decide)

end Nack
